import Mathlib

set_option maxRecDepth 4000

/-!
Verification of the Py_GUI social-network analysis core.

The Python source under verification consists of
`src/controllers/graph_controller.py` (class `GraphController`:
`build_graph`, `_build_networkx_graph`, `_calculate_metrics`) and
`Controllers/data_controller.py` (class `DataController`:
`parse_user_data`, `check_for_errors`, `calculate_statistics`,
`export_to_json`).  Both operate on an `xml.etree.ElementTree.Element`
tree, which we embed shallowly as the inductive type `Elem` below.
-/

/-- Shallow embedding of `xml.etree.ElementTree.Element`: a tag, an
attribute list (in document order), the element text (`None` or a string,
as in ElementTree), and the list of child elements in document order. -/
inductive Elem : Type where
  | mk (tag : String) (attrs : List (String × String)) (text : Option String)
       (children : List Elem)

mutual
def Elem.decEq : (a b : Elem) → Decidable (a = b)
  | .mk t1 a1 x1 c1, .mk t2 a2 x2 c2 =>
    if h1 : t1 = t2 then
      if h2 : a1 = a2 then
        if h3 : x1 = x2 then
          match Elem.decEqList c1 c2 with
          | isTrue h4 => isTrue (by rw [h1, h2, h3, h4])
          | isFalse h4 => isFalse (by intro h; injection h; contradiction)
        else isFalse (by intro h; injection h; contradiction)
      else isFalse (by intro h; injection h; contradiction)
    else isFalse (by intro h; injection h; contradiction)
def Elem.decEqList : (as bs : List Elem) → Decidable (as = bs)
  | [], [] => isTrue rfl
  | [], _ :: _ => isFalse (by intro h; cases h)
  | _ :: _, [] => isFalse (by intro h; cases h)
  | a :: as, b :: bs =>
    match Elem.decEq a b, Elem.decEqList as bs with
    | isTrue h1, isTrue h2 => isTrue (by rw [h1, h2])
    | isFalse h1, _ => isFalse (by intro h; injection h; contradiction)
    | _, isFalse h2 => isFalse (by intro h; injection h; contradiction)
end

instance : DecidableEq Elem := Elem.decEq

def Elem.tag : Elem → String
  | .mk t _ _ _ => t

def Elem.attrs : Elem → List (String × String)
  | .mk _ a _ _ => a

def Elem.text : Elem → Option String
  | .mk _ _ tx _ => tx

def Elem.children : Elem → List Elem
  | .mk _ _ _ cs => cs

/-- `element.get(attr)`: attribute lookup, `None` when absent. -/
def Elem.get (e : Elem) (a : String) : Option String :=
  (e.attrs.find? (fun p => p.1 = a)).map Prod.snd

/-- `element.find(tag)`: first direct child with the given tag, else `None`. -/
def Elem.find (e : Elem) (t : String) : Option Elem :=
  e.children.find? (fun c => c.tag = t)

/-- `element.findall(tag)`: all direct children with the given tag. -/
def Elem.findallDirect (e : Elem) (t : String) : List Elem :=
  e.children.filter (fun c => c.tag = t)

mutual
/-- All strict descendants of an element in document (preorder) order;
this is the element list traversed by `element.findall('.//tag')`
before tag filtering. -/
def Elem.descendants : Elem → List Elem
  | .mk _ _ _ cs => descList cs
def descList : List Elem → List Elem
  | [] => []
  | c :: cs => c :: (Elem.descendants c ++ descList cs)
end

/-- `element.findall('.//tag')`: every descendant with the given tag, in
document order. -/
def Elem.findallDesc (e : Elem) (t : String) : List Elem :=
  e.descendants.filter (fun c => c.tag = t)

/-- Python string truthiness for an optional string: `None` and `""` are
falsy, every other string is truthy. -/
def txtTruthy : Option String → Bool
  | none => false
  | some t => !(t == "")

/-- Python's `str.strip()` whitespace set (ASCII part). -/
def isPyWs (c : Char) : Bool :=
  c == ' ' || c == '\t' || c == '\n' || c == '\r' || c == '\x0b' || c == '\x0c'

/-- Python's `str.strip()`: remove leading and trailing whitespace. -/
def pyStrip (s : String) : String :=
  ⟨((s.data.dropWhile isPyWs).reverse.dropWhile isPyWs).reverse⟩

def digitVal (c : Char) : Nat := c.toNat - 48

/-- Digit-run parser for Python `int()`: digits with single underscores
allowed between digits (`"1_2"` parses, `"1__2"`, `"_1"`, `"1_"` fail). -/
def pyDigitsAux (acc : Nat) : List Char → Option Nat
  | [] => some acc
  | '_' :: c :: rest =>
      if c.isDigit then pyDigitsAux (acc * 10 + digitVal c) rest else none
  | c :: rest =>
      if c.isDigit then pyDigitsAux (acc * 10 + digitVal c) rest else none

def pyDigits : List Char → Option Nat
  | [] => none
  | c :: rest => if c.isDigit then pyDigitsAux (digitVal c) rest else none

/-- Python `int(s)` on a string: strip whitespace, optional sign, ASCII
digit run (with underscore separators); `none` models `ValueError`. -/
def pyInt (s : String) : Option Int :=
  match (pyStrip s).data with
  | [] => none
  | c :: rest =>
    if c == '-' then (pyDigits rest).map (fun n => -(n : Int))
    else if c == '+' then (pyDigits rest).map (fun n => (n : Int))
    else (pyDigits (c :: rest)).map (fun n => (n : Int))

example : pyInt " 42 " = some 42 := by decide
example : pyInt "abc" = none := by decide
example : pyInt "-7" = some (-7) := by decide
example : pyInt "1_2" = some 12 := by decide
example : pyInt "1__2" = none := by decide
example : pyInt "" = none := by decide

example :
    (Elem.mk "net" [] none
      [Elem.mk "user" [("id", "1")] none [Elem.mk "post" [] none []]]).findallDesc
      "post" = [Elem.mk "post" [] none []] := by decide

/-! ## Shared id / edge-target resolution (both controllers) -/

/-- Id resolution used by `build_graph`, `check_for_errors` and
`export_to_json`: `user.get('id')`, falling back to the text of a child
`<id>` element when the attribute is absent (`user_id` may still be the
Python-`None` text of an empty child, modelled by the inner `none`). -/
def resolveId (u : Elem) : Option String :=
  match u.get "id" with
  | some v => some v
  | none => (u.find "id").bind Elem.text

/-- The id resolution followed by Python truthiness (`if user_id:`), as in
`check_for_errors`: empty-string ids count as missing. -/
def resolvedTruthyId (u : Elem) : Option String :=
  match resolveId u with
  | some v => if v = "" then none else some v
  | none => none

/-- Node display name in `build_graph`: the text of the `<name>` child if
that child exists (possibly Python `None`), else `f"User {user_id}"`. -/
def nodeNameOf (u : Elem) (uid : String) : Option String :=
  match u.find "name" with
  | some e => e.text
  | none => some ("User " ++ uid)

/-- Shape A edge targets as extracted by `build_graph` / `export_to_json`:
`<followers><follower><id>V</id></follower></followers>`, text required
truthy, then `.strip()`ed. -/
def shapeATargets (u : Elem) : List String :=
  match u.find "followers" with
  | none => []
  | some fe =>
    (fe.findallDirect "follower").filterMap (fun f =>
      match f.find "id" with
      | some ide =>
        match ide.text with
        | some t => if t = "" then none else some (pyStrip t)
        | none => none
      | none => none)

/-- Shape A edge targets as collected by `check_for_errors`: identical to
`shapeATargets` except the text is NOT stripped. -/
def shapeARawTargets (u : Elem) : List String :=
  match u.find "followers" with
  | none => []
  | some fe =>
    (fe.findallDirect "follower").filterMap (fun f =>
      match f.find "id" with
      | some ide =>
        match ide.text with
        | some t => if t = "" then none else some t
        | none => none
      | none => none)

/-- Shape B edge targets: `<connections><friend user_id="V"/></connections>`,
attribute required truthy (identical in all three consumers). -/
def shapeBTargets (u : Elem) : List String :=
  match u.find "connections" with
  | none => []
  | some ce =>
    (ce.findallDirect "friend").filterMap (fun f =>
      match f.get "user_id" with
      | some v => if v = "" then none else some v
      | none => none)

/-- All edge targets of one user in `build_graph`, Shape A then Shape B. -/
def userTargets (u : Elem) : List String := shapeATargets u ++ shapeBTargets u

/-- `self.xml_data.findall('.//user')`. -/
def usersOf (root : Elem) : List Elem := root.findallDesc "user"

/-! ## GraphController (src/src/controllers/graph_controller.py) -/

/-- Python `dict` assignment `m[k] = v`: update in place when the key
exists (keeping its position), else append. -/
def dictInsert {α : Type} (m : List (String × α)) (k : String) (v : α) :
    List (String × α) :=
  if m.any (fun p => p.1 = k) then m.map (fun p => if p.1 = k then (k, v) else p)
  else m ++ [(k, v)]

structure BuildResult where
  nodes : List (String × Option String)
  edges : List (String × String)
deriving DecidableEq

/-- Loop body of `GraphController.build_graph`: skip users whose id
resolves to Python `None`, otherwise record the node and append one edge
`(user_id, target)` per extracted target. -/
def bgStep (acc : List (String × Option String) × List (String × String))
    (u : Elem) : List (String × Option String) × List (String × String) :=
  match resolveId u with
  | none => acc
  | some uid =>
    (dictInsert acc.1 uid (nodeNameOf u uid),
     acc.2 ++ (userTargets u).map (fun v => (uid, v)))

/-- The accumulated `(nodes, edges)` state after the user loop of
`build_graph`. -/
def bgFold (root : Elem) :
    List (String × Option String) × List (String × String) :=
  (usersOf root).foldl bgStep ([], [])

/-- `GraphController.build_graph` (the data part: nodes dict and edge
list; the NetworkX graph and metrics are modelled separately below). -/
def build_graph (xmlData : Option Elem) : Except String BuildResult :=
  match xmlData with
  | none => .error "No data loaded. Please upload and parse an XML file first."
  | some root =>
    if (bgFold root).1.length = 0 then .error "No users found in XML data."
    else .ok ⟨(bgFold root).1, (bgFold root).2⟩

/-- The `networkx.DiGraph` built by `_build_networkx_graph`: node set in
insertion order, edge set deduplicated per ordered pair in insertion
order (as `DiGraph.add_edge` does). -/
structure DiGraph where
  nodeIds : List String
  edgeList : List (String × String)
deriving DecidableEq

/-- One iteration of the edge loop of `_build_networkx_graph`: add the
edge only when both endpoints are already nodes; `add_edge` is a no-op on
a duplicate ordered pair. -/
def nxStep (ns : List String) (acc : List (String × String))
    (e : String × String) : List (String × String) :=
  if e.1 ∈ ns ∧ e.2 ∈ ns then (if e ∈ acc then acc else acc ++ [e]) else acc

/-- `GraphController._build_networkx_graph`. -/
def buildNetworkxGraph (nodes : List (String × Option String))
    (edges : List (String × String)) : DiGraph :=
  ⟨nodes.map Prod.fst, edges.foldl (nxStep (nodes.map Prod.fst)) []⟩

def DiGraph.numNodes (g : DiGraph) : Nat := g.nodeIds.length

def DiGraph.numEdges (g : DiGraph) : Nat := g.edgeList.length

/-- `nx.density` for a directed graph: `0` when `m == 0 or n <= 1`, else
`m / (n * (n - 1))` (modelled over ℚ). -/
def DiGraph.density (g : DiGraph) : ℚ :=
  if g.numEdges = 0 ∨ g.numNodes ≤ 1 then 0
  else (g.numEdges : ℚ) / ((g.numNodes : ℚ) * ((g.numNodes : ℚ) - 1))

/-- `G.in_degree()[v]`: number of edges targeting `v`. -/
def DiGraph.inDegree (g : DiGraph) (v : String) : Nat :=
  (g.edgeList.filter (fun e => e.2 = v)).length

/-- `G.out_degree()[v]`: number of edges leaving `v`. -/
def DiGraph.outDegree (g : DiGraph) (v : String) : Nat :=
  (g.edgeList.filter (fun e => e.1 = v)).length

/-- `metrics['avg_in_degree'] = np.mean(list(in_degrees.values())) if
in_degrees else 0`, with one in-degree entry per node (modelled over ℚ). -/
def DiGraph.avgInDegree (g : DiGraph) : ℚ :=
  if g.nodeIds = [] then 0
  else ((g.nodeIds.map (fun v => (g.inDegree v : ℚ))).sum) / (g.numNodes : ℚ)

/-- `metrics['avg_out_degree']`, analogous over out-degrees. -/
def DiGraph.avgOutDegree (g : DiGraph) : ℚ :=
  if g.nodeIds = [] then 0
  else ((g.nodeIds.map (fun v => (g.outDegree v : ℚ))).sum) / (g.numNodes : ℚ)

/-! ## DataController (src/Controllers/data_controller.py) -/

/-- Per-user contribution of a scalar count field (`<followers>` /
`<following>` direct text) to the running totals of `parse_user_data` and
`calculate_statistics`: text must be truthy, then `int(text.strip())`,
with parse failures contributing 0 (`except: pass`). -/
def scalarOf (u : Elem) (t : String) : Int :=
  match u.find t with
  | some e =>
    match e.text with
    | some s => if s = "" then 0 else (pyInt (pyStrip s)).getD 0
    | none => 0
  | none => 0

/-- `sample_user_info` of `parse_user_data`: `id` from
`sample_user.get('id', 'N/A')` and `username` from the text of the
`username` child (Python `None` possible), `"N/A"` when that child is
absent. -/
structure SampleUser where
  id : String
  username : Option String
deriving DecidableEq

structure ParseStats where
  total_users : Nat
  total_followers : Int
  total_following : Int
  total_posts : Nat
  sample_user : Option SampleUser
deriving DecidableEq

/-- `DataController.parse_user_data`. -/
def parse_user_data (xmlData : Option Elem) : Except String ParseStats :=
  match xmlData with
  | none => .error "No data loaded. Please upload and parse an XML file first."
  | some root =>
    let users := usersOf root
    let sample : Option SampleUser :=
      match users with
      | [] => none
      | u :: _ =>
        some ⟨(u.get "id").getD "N/A",
              match u.find "username" with
              | some e => e.text
              | none => some "N/A"⟩
    .ok ⟨users.length,
         (users.map (fun u => scalarOf u "followers")).sum,
         (users.map (fun u => scalarOf u "following")).sum,
         (users.map (fun u => (u.findallDesc "post").length)).sum,
         sample⟩

/-- Messages appended for one user by the loop body of
`check_for_errors`: an untruthy id yields the missing-ID error and skips
every other check (`continue`); otherwise the missing-name error, one
warning per post without a truthy `id` attribute, and one warning per
follower/connection target (Shape A unstripped) absent from `validIds`. -/
def checkUserMsgs (validIds : List String) (idx : Nat) (u : Elem) :
    List String × List String :=
  match resolvedTruthyId u with
  | none => ([s!"User #{idx}: Missing user ID"], [])
  | some uid =>
    let nameErrs :=
      match u.find "name" with
      | some e => if txtTruthy e.text then [] else [s!"User {uid}: Missing name"]
      | none => [s!"User {uid}: Missing name"]
    let postWarns := (u.findallDesc "post").filterMap (fun p =>
      match p.get "id" with
      | some pid => if pid = "" then some s!"User {uid}: Post missing ID" else none
      | none => some s!"User {uid}: Post missing ID")
    let followerWarns := (shapeARawTargets u ++ shapeBTargets u).filterMap
      (fun fid =>
        if fid ∈ validIds then none
        else some s!"User {uid}: Follower ID {fid} does not exist in network")
    (nameErrs, postWarns ++ followerWarns)

/-- Accumulation of `errors` / `warnings` over the 1-indexed
`enumerate(users, 1)` loop of `check_for_errors`. -/
def cfeStep (validIds : List String) (acc : List String × List String)
    (iu : Nat × Elem) : List String × List String :=
  ((acc.1 ++ (checkUserMsgs validIds iu.1 iu.2).1),
   (acc.2 ++ (checkUserMsgs validIds iu.1 iu.2).2))

/-- `DataController.check_for_errors`, returning `(errors, warnings)`. -/
def check_for_errors (xmlData : Option Elem) :
    Except String (List String × List String) :=
  match xmlData with
  | none => .error "No data loaded. Please upload and parse an XML file first."
  | some root =>
    let users := usersOf root
    let validIds := users.filterMap resolvedTruthyId
    .ok ((users.enumFrom 1).foldl (cfeStep validIds) ([], []))

/-- Ages list of `calculate_statistics`: one entry per user whose `<age>`
child has truthy text parsing as an integer. -/
def agesOf (users : List Elem) : List Int :=
  users.filterMap (fun u =>
    match u.find "age" with
    | some e =>
      match e.text with
      | some s => if s = "" then none else pyInt (pyStrip s)
      | none => none
    | none => none)

structure CalcStats where
  total_users : Nat
  total_posts : Nat
  total_followers : Int
  total_following : Int
  avg_age : ℚ
  avg_followers : ℚ
  avg_posts : ℚ
deriving DecidableEq

/-- `DataController.calculate_statistics`. -/
def calculate_statistics (xmlData : Option Elem) : Except String CalcStats :=
  match xmlData with
  | none => .error "No data loaded. Please upload and parse an XML file first."
  | some root =>
    let users := usersOf root
    let total_users := users.length
    let total_posts := (users.map (fun u => (u.findallDesc "post").length)).sum
    let total_followers := (users.map (fun u => scalarOf u "followers")).sum
    let total_following := (users.map (fun u => scalarOf u "following")).sum
    let ages := agesOf users
    .ok ⟨total_users, total_posts, total_followers, total_following,
         if ages = [] then 0 else ((ages.sum : ℚ)) / (ages.length : ℚ),
         if 0 < total_users then (total_followers : ℚ) / (total_users : ℚ) else 0,
         if 0 < total_users then (total_posts : ℚ) / (total_users : ℚ) else 0⟩

/-- Likes resolution of `export_to_json`: the `<likes>` child's text,
truthy, `int(text.strip())`, defaulting to 0 on absence or parse
failure — never an exception. -/
def exportLikes (p : Elem) : Int :=
  match p.find "likes" with
  | some e =>
    match e.text with
    | some t => if t = "" then 0 else (pyInt (pyStrip t)).getD 0
    | none => 0
  | none => 0

/-- `content` / `timestamp` resolution of `export_to_json`: stripped
truthy text, else `""`. -/
def strippedTextOrEmpty (p : Elem) (t : String) : String :=
  match p.find t with
  | some e =>
    match e.text with
    | some s => if s = "" then "" else pyStrip s
    | none => ""
  | none => ""

structure PostJson where
  id : Option String
  content : String
  timestamp : String
  likes : Int
deriving DecidableEq

structure UserJson where
  id : String
  name : Option String
  posts : List PostJson
  followers : List String
deriving DecidableEq

/-- One `post_dict` of `export_to_json`. -/
def exportPost (p : Elem) : PostJson :=
  ⟨p.get "id", strippedTextOrEmpty p "content",
   strippedTextOrEmpty p "timestamp", exportLikes p⟩

/-- `name` resolution of `export_to_json`: stripped truthy text, else
Python `None`. -/
def exportName (u : Elem) : Option String :=
  match u.find "name" with
  | some e =>
    match e.text with
    | some s => if s = "" then none else some (pyStrip s)
    | none => none
  | none => none

/-- One `user_dict` of `export_to_json`; users whose id resolves to
Python `None` are skipped (`continue`). -/
def exportUser (u : Elem) : Option UserJson :=
  match resolveId u with
  | none => none
  | some uid =>
    some ⟨uid, exportName u, (u.findallDesc "post").map exportPost,
          shapeATargets u ++ shapeBTargets u⟩

/-- `DataController.export_to_json` (the JSON value and success message;
the actual file write is external I/O outside this model). -/
def export_to_json (filePath : String) (xmlData : Option Elem) :
    Except String (List UserJson × String) :=
  match xmlData with
  | none => .error "No data loaded. Please upload and parse an XML file first."
  | some root =>
    let users := usersOf root
    .ok (users.filterMap exportUser,
      s!"Successfully exported {users.length} users to JSON. File saved: {filePath}")

deriving instance DecidableEq for Except

/-! ## Concrete documents used as witnesses and counterexamples -/

/-- Abbreviation for building concrete XML elements. -/
def el (t : String) (attrs : List (String × String)) (tx : Option String)
    (cs : List Elem) : Elem := ⟨t, attrs, tx, cs⟩

/-- A leaf element carrying only text. -/
def txt (t s : String) : Elem := ⟨t, [], some s, []⟩

/-- Scenario A: Alice (id 1) and Bob (id 2, Shape A follower entry 1). -/
def userAliceA : Elem := el "user" [("id", "1")] none [txt "name" "Alice"]

def userBobA : Elem :=
  el "user" [("id", "2")] none
    [txt "name" "Bob",
     el "followers" [] none [el "follower" [] none [txt "id" "1"]]]

def docA : Elem := el "network" [] none [userAliceA, userBobA]

example :
    build_graph (some docA) =
      .ok ⟨[("1", some "Alice"), ("2", some "Bob")], [("2", "1")]⟩ := by decide

example :
    buildNetworkxGraph [("1", some "Alice"), ("2", some "Bob")] [("2", "1")] =
      ⟨["1", "2"], [("2", "1")]⟩ := by decide

/-- Two users that each follow both users (self-loops included). -/
def userSelf1 : Elem :=
  el "user" [("id", "1")] none
    [txt "name" "A",
     el "connections" [] none
       [el "friend" [("user_id", "1")] none [], el "friend" [("user_id", "2")] none []]]

def userSelf2 : Elem :=
  el "user" [("id", "2")] none
    [txt "name" "B",
     el "connections" [] none
       [el "friend" [("user_id", "1")] none [], el "friend" [("user_id", "2")] none []]]

def docSelf : Elem := el "network" [] none [userSelf1, userSelf2]

example :
    build_graph (some docSelf) =
      .ok ⟨[("1", some "A"), ("2", some "B")],
           [("1", "1"), ("1", "2"), ("2", "1"), ("2", "2")]⟩ := by decide

/-- One user element with no resolvable id but a scalar followers count. -/
def docNoId : Elem :=
  el "network" [] none [el "user" [] none [txt "followers" "5"]]

/-- A document with zero `user` elements. -/
def docEmpty : Elem := el "network" [] none []

/-- One user with an `id` attribute and a `<name>` child but no
`<username>` child. -/
def docC6 : Elem := el "network" [] none [userAliceA]

/-- Bob lists the existing user 1 both under Shape A and Shape B. -/
def userBobBoth : Elem :=
  el "user" [("id", "2")] none
    [txt "name" "Bob",
     el "followers" [] none [el "follower" [] none [txt "id" "1"]],
     el "connections" [] none [el "friend" [("user_id", "1")] none []]]

def docC7 : Elem := el "network" [] none [userAliceA, userBobBoth]

/-- An id-less user carrying a dangling Shape B reference. -/
def userNoIdDangling : Elem :=
  el "user" [] none
    [el "connections" [] none [el "friend" [("user_id", "99")] none []]]

def docNoIdDangling : Elem := el "network" [] none [userNoIdDangling]

/-- Scenario C: Bob references the nonexistent id 99 via Shape B. -/
def docScenC : Elem :=
  el "network" [] none
    [userAliceA,
     el "user" [("id", "2")] none
       [txt "name" "Bob",
        el "connections" [] none [el "friend" [("user_id", "99")] none []]]]

/-- Bob's Shape A entry carries the existing id 1 surrounded by spaces. -/
def userBobWs : Elem :=
  el "user" [("id", "2")] none
    [txt "name" "Bob",
     el "followers" [] none [el "follower" [] none [txt "id" " 1 "]]]

def docWs : Elem := el "network" [] none [userAliceA, userBobWs]

/-- Scenario E: a post whose `<likes>` text is unparsable. -/
def docE : Elem :=
  el "network" [] none
    [el "user" [("id", "1")] none
      [txt "name" "Ann",
       el "post" [("id", "p1")] none [txt "likes" "abc", txt "content" "hi"]]]

example :
    build_graph (some docNoId) = .error "No users found in XML data." := by decide

example :
    (calculate_statistics (some docNoId)).toOption.map CalcStats.total_users =
      some 1 := by decide

example :
    (calculate_statistics (some docNoId)).toOption.map CalcStats.total_followers =
      some 5 := by decide

example :
    (calculate_statistics (some docEmpty)).toOption.map CalcStats.total_users =
      some 0 := by decide

example :
    parse_user_data (some docC6) = .ok ⟨1, 0, 0, 0, some ⟨"1", some "N/A"⟩⟩ := by
  decide

example :
    build_graph (some docC7) =
      .ok ⟨[("1", some "Alice"), ("2", some "Bob")], [("2", "1"), ("2", "1")]⟩ := by
  decide

example :
    check_for_errors (some docNoIdDangling) =
      .ok (["User #1: Missing user ID"], []) := by decide

example :
    check_for_errors (some docScenC) =
      .ok ([], ["User 2: Follower ID 99 does not exist in network"]) := by decide

example :
    check_for_errors (some docWs) =
      .ok ([], ["User 2: Follower ID  1  does not exist in network"]) := by decide

example :
    build_graph (some docWs) =
      .ok ⟨[("1", some "Alice"), ("2", some "Bob")], [("2", "1")]⟩ := by decide

example :
    export_to_json "out.json" (some docE) =
      .ok ([⟨"1", some "Ann", [⟨some "p1", "hi", "", 0⟩], []⟩],
        "Successfully exported 1 users to JSON. File saved: out.json") := by decide

example : check_for_errors (some docE) = .ok ([], []) := by decide

/-! ## Fold characterizations of the `build_graph` user loop -/

/-- Edges contributed by one user in the `build_graph` loop: one pair
`(user_id, target)` per extracted target, nothing for id-less users. -/
def edgesOfUser (u : Elem) : List (String × String) :=
  match resolveId u with
  | none => []
  | some uid => (userTargets u).map (fun v => (uid, v))

theorem bgStep_snd (acc : List (String × Option String) × List (String × String))
    (u : Elem) : (bgStep acc u).2 = acc.2 ++ edgesOfUser u := by
  cases h : resolveId u <;> simp [bgStep, edgesOfUser, h]

theorem foldl_bgStep_snd (users : List Elem) :
    ∀ acc, (users.foldl bgStep acc).2 = acc.2 ++ users.flatMap edgesOfUser := by
  induction users with
  | nil => intro acc; simp
  | cons u us ih =>
    intro acc
    rw [List.foldl_cons, List.flatMap_cons, ih, bgStep_snd, List.append_assoc]

theorem build_graph_ok {root : Elem} {r : BuildResult}
    (h : build_graph (some root) = .ok r) :
    r = ⟨(bgFold root).1, (bgFold root).2⟩ ∧ (bgFold root).1.length ≠ 0 := by
  by_cases hc : (bgFold root).1.length = 0
  · rw [show build_graph (some root) = .error "No users found in XML data." from
      by simp [build_graph, hc]] at h
    exact Except.noConfusion h
  · rw [show build_graph (some root) = .ok ⟨(bgFold root).1, (bgFold root).2⟩ from
      by simp [build_graph, hc]] at h
    exact ⟨by injection h with h2; exact h2.symm, hc⟩

theorem build_graph_edges {root : Elem} {r : BuildResult}
    (h : build_graph (some root) = .ok r) :
    r.edges = (usersOf root).flatMap edgesOfUser := by
  obtain ⟨h1, -⟩ := build_graph_ok h
  rw [h1]
  show (bgFold root).2 = _
  rw [bgFold, foldl_bgStep_snd]
  rfl

theorem dictInsert_fst_mem {α : Type} (m : List (String × α)) (k : String)
    (v : α) : k ∈ (dictInsert m k v).map Prod.fst := by
  unfold dictInsert
  split
  · next hany =>
    rw [List.any_eq_true] at hany
    obtain ⟨p, hp, hpk⟩ := hany
    simp only [decide_eq_true_eq] at hpk
    rw [List.map_map]
    exact List.mem_map.mpr ⟨p, hp, by simp [hpk]⟩
  · simp

theorem dictInsert_fst_mono {α : Type} (m : List (String × α)) (k x : String)
    (v : α) (hx : x ∈ m.map Prod.fst) : x ∈ (dictInsert m k v).map Prod.fst := by
  unfold dictInsert
  split
  · rw [List.map_map]
    obtain ⟨p, hp, hpx⟩ := List.mem_map.mp hx
    refine List.mem_map.mpr ⟨p, hp, ?_⟩
    by_cases h : p.1 = k
    · simpa [h] using hpx.symm ▸ h.symm
    · simpa [h] using hpx
  · rw [List.map_append]
    exact List.mem_append_left _ hx

theorem dictInsert_fst_nodup {α : Type} (m : List (String × α)) (k : String)
    (v : α) (h : (m.map Prod.fst).Nodup) :
    ((dictInsert m k v).map Prod.fst).Nodup := by
  unfold dictInsert
  split
  · next hany =>
    rw [List.map_map]
    have heq : ∀ p ∈ m, (Prod.fst ∘ fun p => if p.1 = k then (k, v) else p) p = p.1 := by
      intro p hp
      by_cases hh : p.1 = k <;> simp [hh]
    rw [List.map_congr_left heq]
    exact h
  · next hany =>
    rw [List.map_append]
    simp only [List.map_cons, List.map_nil]
    refine List.Nodup.append h (List.nodup_singleton k) ?_
    intro a ha hb
    rw [List.mem_singleton] at hb
    subst hb
    obtain ⟨p, hp, hpa⟩ := List.mem_map.mp ha
    exact hany (List.any_eq_true.mpr ⟨p, hp, by simp [hpa]⟩)

theorem bgStep_fst_mono
    (acc : List (String × Option String) × List (String × String)) (u : Elem)
    (x : String) (hx : x ∈ acc.1.map Prod.fst) :
    x ∈ (bgStep acc u).1.map Prod.fst := by
  cases h : resolveId u
  · simpa [bgStep, h] using hx
  · simp only [bgStep, h]
    exact dictInsert_fst_mono _ _ _ _ hx

theorem foldl_bgStep_fst_mono (users : List Elem) :
    ∀ acc x, x ∈ acc.1.map Prod.fst →
      x ∈ ((users.foldl bgStep acc).1).map Prod.fst := by
  induction users with
  | nil => intro acc x hx; exact hx
  | cons u us ih =>
    intro acc x hx
    exact ih _ x (bgStep_fst_mono acc u x hx)

theorem foldl_bgStep_fst_mem (users : List Elem) :
    ∀ acc (u : Elem) (uid : String), u ∈ users → resolveId u = some uid →
      uid ∈ ((users.foldl bgStep acc).1).map Prod.fst := by
  induction users with
  | nil => intro acc u uid hu; exact absurd hu (List.not_mem_nil u)
  | cons a us ih =>
    intro acc u uid hu hid
    rcases List.mem_cons.mp hu with h | h
    · subst h
      apply foldl_bgStep_fst_mono us
      simp only [bgStep, hid]
      exact dictInsert_fst_mem _ _ _
    · exact ih _ u uid h hid

theorem foldl_bgStep_fst_nodup (users : List Elem) :
    ∀ acc, (acc.1.map Prod.fst).Nodup →
      (((users.foldl bgStep acc).1).map Prod.fst).Nodup := by
  induction users with
  | nil => intro acc h; exact h
  | cons u us ih =>
    intro acc h
    refine ih _ ?_
    cases hc : resolveId u
    · simpa [bgStep, hc] using h
    · simp only [bgStep, hc]
      exact dictInsert_fst_nodup _ _ _ h

theorem build_graph_nodes_key {root : Elem} {r : BuildResult} {u : Elem}
    {uid : String} (h : build_graph (some root) = .ok r)
    (hu : u ∈ usersOf root) (hid : resolveId u = some uid) :
    uid ∈ r.nodes.map Prod.fst := by
  obtain ⟨h1, -⟩ := build_graph_ok h
  rw [h1]
  exact foldl_bgStep_fst_mem _ _ u uid hu hid

theorem build_graph_nodes_nodup {root : Elem} {r : BuildResult}
    (h : build_graph (some root) = .ok r) : (r.nodes.map Prod.fst).Nodup := by
  obtain ⟨h1, -⟩ := build_graph_ok h
  rw [h1]
  exact foldl_bgStep_fst_nodup _ _ (by simp)

theorem build_graph_nodes_ne_nil {root : Elem} {r : BuildResult}
    (h : build_graph (some root) = .ok r) : r.nodes ≠ [] := by
  obtain ⟨h1, h2⟩ := build_graph_ok h
  rw [h1]
  intro hc
  exact h2 (by simp [show (bgFold root).1 = [] from hc])

/-! ## Lemmas about the NetworkX graph construction -/

theorem nxStep_subset (ns : List String) (acc : List (String × String))
    (e x : String × String) (hx : x ∈ acc) : x ∈ nxStep ns acc e := by
  unfold nxStep
  split
  · split
    · exact hx
    · exact List.mem_append_left _ hx
  · exact hx

theorem nxfold_mono (edges : List (String × String)) (ns : List String) :
    ∀ acc x, x ∈ acc → x ∈ edges.foldl (nxStep ns) acc := by
  induction edges with
  | nil => intro acc x hx; exact hx
  | cons f es ih => intro acc x hx; exact ih _ x (nxStep_subset ns acc f x hx)

theorem nxfold_mem (edges : List (String × String)) (ns : List String) :
    ∀ acc x, x ∈ edges.foldl (nxStep ns) acc →
      x ∈ acc ∨ (x ∈ edges ∧ x.1 ∈ ns ∧ x.2 ∈ ns) := by
  induction edges with
  | nil => intro acc x hx; exact Or.inl hx
  | cons f es ih =>
    intro acc x hx
    rcases ih _ x hx with h | h
    · unfold nxStep at h
      split at h
      · next hboth =>
        split at h
        · exact Or.inl h
        · rcases List.mem_append.mp h with h2 | h2
          · exact Or.inl h2
          · rw [List.mem_singleton] at h2
            subst h2
            exact Or.inr ⟨List.mem_cons_self _ _, hboth.1, hboth.2⟩
      · exact Or.inl h
    · exact Or.inr ⟨List.mem_cons_of_mem _ h.1, h.2⟩

theorem nxfold_mem_of (edges : List (String × String)) (ns : List String) :
    ∀ acc x, x ∈ edges → x.1 ∈ ns → x.2 ∈ ns →
      x ∈ edges.foldl (nxStep ns) acc := by
  induction edges with
  | nil => intro acc x hx; exact absurd hx (List.not_mem_nil x)
  | cons f es ih =>
    intro acc x hx h1 h2
    rw [List.foldl_cons]
    rcases List.mem_cons.mp hx with h | h
    · subst h
      apply nxfold_mono
      unfold nxStep
      rw [if_pos ⟨h1, h2⟩]
      split
      · assumption
      · exact List.mem_append_right _ (List.mem_singleton_self x)
    · exact ih _ x h h1 h2

theorem nxStep_nodup (ns : List String) (acc : List (String × String))
    (e : String × String) (h : acc.Nodup) : (nxStep ns acc e).Nodup := by
  unfold nxStep
  split
  · split
    · exact h
    · next hmem =>
      refine List.Nodup.append h (List.nodup_singleton e) ?_
      intro a ha hb
      rw [List.mem_singleton] at hb
      subst hb
      exact hmem ha
  · exact h

theorem nxfold_nodup (edges : List (String × String)) (ns : List String) :
    ∀ acc, acc.Nodup → (edges.foldl (nxStep ns) acc).Nodup := by
  induction edges with
  | nil => intro acc h; exact h
  | cons f es ih => intro acc h; exact ih _ (nxStep_nodup ns acc f h)

theorem nxfold_filter (edges : List (String × String)) (ns : List String) :
    ∀ acc, (edges.filter
        (fun e => decide (e.1 ∈ ns) && decide (e.2 ∈ ns))).foldl
        (nxStep ns) acc = edges.foldl (nxStep ns) acc := by
  induction edges with
  | nil => intro acc; rfl
  | cons f es ih =>
    intro acc
    by_cases hb : f.1 ∈ ns ∧ f.2 ∈ ns
    · rw [List.filter_cons_of_pos (by simp [hb.1, hb.2]), List.foldl_cons,
        List.foldl_cons, ih]
    · rw [List.filter_cons_of_neg (by simpa using fun h1 h2 => hb ⟨h1, h2⟩),
        List.foldl_cons,
        show nxStep ns acc f = acc from by unfold nxStep; rw [if_neg hb],
        ih]

/-! ## Degree-sum counting lemmas -/

theorem sum_map_add_nat (l : List String) (f g : String → Nat) :
    (l.map (fun v => f v + g v)).sum = (l.map f).sum + (l.map g).sum := by
  induction l with
  | nil => rfl
  | cons a l ih =>
    simp only [List.map_cons, List.sum_cons, ih]
    omega

theorem sum_indicator (l : List String) (a : String) :
    (l.map (fun v => if a = v then (1 : Nat) else 0)).sum = l.count a := by
  induction l with
  | nil => rfl
  | cons b l ih =>
    rw [List.map_cons, List.sum_cons, ih, List.count_cons]
    by_cases h : a = b
    · rw [if_pos h, if_pos (beq_iff_eq.mpr h.symm)]
      omega
    · rw [if_neg h, if_neg (by simp only [beq_iff_eq]; exact fun hh => h hh.symm)]
      omega

theorem sum_filter_proj (ns : List String) (pj : String × String → String) :
    ∀ es : List (String × String), ns.Nodup → (∀ e ∈ es, pj e ∈ ns) →
      (ns.map (fun v => (es.filter (fun e => pj e = v)).length)).sum =
        es.length := by
  intro es
  induction es with
  | nil => intro _ _; simp
  | cons f es ih =>
    intro hnd hmem
    have h1 : ∀ v ∈ ns, ((f :: es).filter (fun e => pj e = v)).length =
        (if pj f = v then 1 else 0) +
          (es.filter (fun e => pj e = v)).length := by
      intro v _
      by_cases h : pj f = v
      · rw [List.filter_cons_of_pos (by simp [h])]
        simp only [List.length_cons, if_pos h]
        omega
      · rw [List.filter_cons_of_neg (by simp [h])]
        simp [h]
    rw [List.map_congr_left h1, sum_map_add_nat, sum_indicator,
      ih hnd (fun e he => hmem e (List.mem_cons_of_mem f he)),
      List.count_eq_one_of_mem hnd (hmem f (List.mem_cons_self f es))]
    simp only [List.length_cons]
    omega

/-! ## Claim theorems -/

/-- Claim C1: for every user element whose id resolves to `U`, each
target id `V` extracted from its `followers` block (Shape A) or
`connections` block (Shape B) produces the directed edge `(U, V)` in the
edge list returned by `build_graph`; moreover every edge of that list is
of this form `(owner, target)` — never the reversed pair `(V, U)`. -/
theorem C1_edge_direction (root u : Elem) (uid v : String) (r : BuildResult)
    (hb : build_graph (some root) = .ok r)
    (hu : u ∈ usersOf root) (hid : resolveId u = some uid)
    (hv : v ∈ userTargets u) :
    (uid, v) ∈ r.edges ∧
      ∀ e ∈ r.edges, ∃ w ∈ usersOf root, ∃ wid, resolveId w = some wid ∧
        e.1 = wid ∧ e.2 ∈ userTargets w := by
  rw [build_graph_edges hb]
  constructor
  · refine List.mem_flatMap.mpr ⟨u, hu, ?_⟩
    simp only [edgesOfUser, hid]
    exact List.mem_map.mpr ⟨v, hv, rfl⟩
  · intro e he
    obtain ⟨w, hw, hew⟩ := List.mem_flatMap.mp he
    unfold edgesOfUser at hew
    split at hew
    · exact absurd hew (List.not_mem_nil e)
    · next wid hwid =>
      obtain ⟨t, ht, hte⟩ := List.mem_map.mp hew
      exact ⟨w, hw, wid, hwid, by rw [← hte], by rw [← hte]; exact ht⟩

def bgResA : BuildResult :=
  ⟨[("1", some "Alice"), ("2", some "Bob")], [("2", "1")]⟩

/-- Witness for C1 at Scenario A: Bob (id 2) lists 1 under his
`followers` block and the produced edge is `("2", "1")`. -/
theorem C1_edge_direction_witness :
    build_graph (some docA) = .ok bgResA ∧ userBobA ∈ usersOf docA ∧
      resolveId userBobA = some "2" ∧ "1" ∈ userTargets userBobA ∧
      (("2", "1") ∈ bgResA.edges ∧
        ∀ e ∈ bgResA.edges, ∃ w ∈ usersOf docA, ∃ wid,
          resolveId w = some wid ∧ e.1 = wid ∧ e.2 ∈ userTargets w) :=
  ⟨by decide, by decide, by decide, by decide,
   C1_edge_direction docA userBobA "2" "1" bgResA (by decide) (by decide)
     (by decide) (by decide)⟩

/-- Claim C3: the NetworkX graph built by `_build_networkx_graph` only
materializes an edge when both endpoints are nodes, and dropping the
dangling edges from the input leaves the constructed graph (hence its
edge count) unchanged. -/
theorem C3_dangling_edges_dropped (nodes : List (String × Option String))
    (edges : List (String × String)) :
    (∀ e ∈ (buildNetworkxGraph nodes edges).edgeList,
        e.1 ∈ (buildNetworkxGraph nodes edges).nodeIds ∧
        e.2 ∈ (buildNetworkxGraph nodes edges).nodeIds) ∧
    buildNetworkxGraph nodes
        (edges.filter (fun e => decide (e.1 ∈ nodes.map Prod.fst) &&
          decide (e.2 ∈ nodes.map Prod.fst))) =
      buildNetworkxGraph nodes edges := by
  constructor
  · intro e he
    rcases nxfold_mem edges (nodes.map Prod.fst) [] e he with h | h
    · exact absurd h (List.not_mem_nil e)
    · exact ⟨h.2.1, h.2.2⟩
  · unfold buildNetworkxGraph
    rw [nxfold_filter edges (nodes.map Prod.fst) []]

/-- Witness for C3 on a node set `{1}` with one dangling edge to 9. -/
theorem C3_dangling_edges_dropped_witness :
    (∀ e ∈ (buildNetworkxGraph [("1", some "Alice")] [("1", "9")]).edgeList,
        e.1 ∈ (buildNetworkxGraph [("1", some "Alice")] [("1", "9")]).nodeIds ∧
        e.2 ∈ (buildNetworkxGraph [("1", some "Alice")] [("1", "9")]).nodeIds) ∧
    buildNetworkxGraph [("1", some "Alice")]
        ([("1", "9")].filter (fun e =>
          decide (e.1 ∈ [("1", some "Alice")].map Prod.fst) &&
          decide (e.2 ∈ [("1", some "Alice")].map Prod.fst))) =
      buildNetworkxGraph [("1", some "Alice")] [("1", "9")] :=
  C3_dangling_edges_dropped [("1", some "Alice")] [("1", "9")]

/-- Claim C9: for every successfully built graph, the average in-degree
equals the average out-degree, and both equal `num_edges / num_nodes`. -/
theorem C9_avg_degree_symmetry (root : Elem) (r : BuildResult)
    (h : build_graph (some root) = .ok r) :
    (buildNetworkxGraph r.nodes r.edges).avgInDegree =
        ((buildNetworkxGraph r.nodes r.edges).numEdges : ℚ) /
          ((buildNetworkxGraph r.nodes r.edges).numNodes : ℚ) ∧
    (buildNetworkxGraph r.nodes r.edges).avgOutDegree =
        ((buildNetworkxGraph r.nodes r.edges).numEdges : ℚ) /
          ((buildNetworkxGraph r.nodes r.edges).numNodes : ℚ) := by
  set g := buildNetworkxGraph r.nodes r.edges with hg
  have hns : g.nodeIds = r.nodes.map Prod.fst := rfl
  have hnd : g.nodeIds.Nodup := by
    rw [hns]; exact build_graph_nodes_nodup h
  have hne : ¬ g.nodeIds = [] := by
    rw [hns]
    intro hc
    exact build_graph_nodes_ne_nil h (List.map_eq_nil_iff.mp hc)
  have hmemAll : ∀ e ∈ g.edgeList, e.1 ∈ g.nodeIds ∧ e.2 ∈ g.nodeIds := by
    intro e he
    rcases nxfold_mem r.edges (r.nodes.map Prod.fst) [] e he with h2 | h2
    · exact absurd h2 (List.not_mem_nil e)
    · exact ⟨h2.2.1, h2.2.2⟩
  have hcast : ∀ dg : String → Nat,
      (g.nodeIds.map (fun v => ((dg v : ℚ)))).sum =
        (((g.nodeIds.map (fun v => dg v)).sum : ℕ) : ℚ) := by
    intro dg
    rw [Nat.cast_list_sum, List.map_map]
    rfl
  constructor
  · rw [DiGraph.avgInDegree, if_neg hne]
    rw [hcast (fun v => g.inDegree v)]
    rw [show (fun v => g.inDegree v) =
        (fun v => (g.edgeList.filter (fun e => Prod.snd e = v)).length) from rfl]
    rw [sum_filter_proj g.nodeIds Prod.snd g.edgeList hnd
      (fun e he => (hmemAll e he).2)]
    rfl
  · rw [DiGraph.avgOutDegree, if_neg hne]
    rw [hcast (fun v => g.outDegree v)]
    rw [show (fun v => g.outDegree v) =
        (fun v => (g.edgeList.filter (fun e => Prod.fst e = v)).length) from rfl]
    rw [sum_filter_proj g.nodeIds Prod.fst g.edgeList hnd
      (fun e he => (hmemAll e he).1)]
    rfl

/-- Witness for C9 at Scenario A. -/
theorem C9_avg_degree_symmetry_witness :
    build_graph (some docA) = .ok bgResA ∧
    ((buildNetworkxGraph bgResA.nodes bgResA.edges).avgInDegree =
        ((buildNetworkxGraph bgResA.nodes bgResA.edges).numEdges : ℚ) /
          ((buildNetworkxGraph bgResA.nodes bgResA.edges).numNodes : ℚ) ∧
      (buildNetworkxGraph bgResA.nodes bgResA.edges).avgOutDegree =
        ((buildNetworkxGraph bgResA.nodes bgResA.edges).numEdges : ℚ) /
          ((buildNetworkxGraph bgResA.nodes bgResA.edges).numNodes : ℚ)) :=
  ⟨by decide, C9_avg_degree_symmetry docA bgResA (by decide)⟩

/-! ## Claim C4: density -/

def bgResSelf : BuildResult :=
  ⟨[("1", some "A"), ("2", some "B")],
   [("1", "1"), ("1", "2"), ("2", "1"), ("2", "2")]⟩

/-- Counterexample to Claim C4 as stated: in `docSelf` every user also
follows themself, the built graph has 2 nodes and 4 edges (self-loops
included), so its density is `4 / (2 * 1) = 2 > 1`. -/
theorem C4_density_counterexample :
    build_graph (some docSelf) = .ok bgResSelf ∧
    2 ≤ (buildNetworkxGraph bgResSelf.nodes bgResSelf.edges).numNodes ∧
    ¬ (buildNetworkxGraph bgResSelf.nodes bgResSelf.edges).density ≤ 1 := by
  refine ⟨by decide, by decide, ?_⟩
  have h1 : (buildNetworkxGraph bgResSelf.nodes bgResSelf.edges).numEdges = 4 := by
    decide
  have h2 : (buildNetworkxGraph bgResSelf.nodes bgResSelf.edges).numNodes = 2 := by
    decide
  rw [DiGraph.density, h1, h2, if_neg (by norm_num)]
  push_cast
  norm_num

theorem sq_sub_self_mono (a b : ℕ) (hab : a ≤ b) : a * a - a ≤ b * b - b := by
  cases a with
  | zero => simp
  | succ m =>
    cases b with
    | zero => omega
    | succ k =>
      have e1 : (m + 1) * (m + 1) - (m + 1) = (m + 1) * m := by
        have : (m + 1) * (m + 1) = (m + 1) * m + (m + 1) := by ring
        omega
      have e2 : (k + 1) * (k + 1) - (k + 1) = (k + 1) * k := by
        have : (k + 1) * (k + 1) = (k + 1) * k + (k + 1) := by ring
        omega
      rw [e1, e2]
      exact Nat.mul_le_mul (by omega) (by omega)

/-- Claim C4 (amended): the density of the built graph equals
`numEdges / (numNodes * (numNodes - 1))` when `numNodes ≥ 2` and `0`
otherwise, and it is always nonnegative; the upper bound `density ≤ 1`
holds whenever the built graph has no self-loop edge (a user following
themself can push the density above 1, see the counterexample). -/
theorem C4_density_amended (root : Elem) (r : BuildResult)
    (_h : build_graph (some root) = .ok r) :
    ((buildNetworkxGraph r.nodes r.edges).density =
      if 2 ≤ (buildNetworkxGraph r.nodes r.edges).numNodes then
        ((buildNetworkxGraph r.nodes r.edges).numEdges : ℚ) /
          (((buildNetworkxGraph r.nodes r.edges).numNodes : ℚ) *
            (((buildNetworkxGraph r.nodes r.edges).numNodes : ℚ) - 1))
      else 0) ∧
    0 ≤ (buildNetworkxGraph r.nodes r.edges).density ∧
    ((∀ e ∈ (buildNetworkxGraph r.nodes r.edges).edgeList, e.1 ≠ e.2) →
      (buildNetworkxGraph r.nodes r.edges).density ≤ 1) := by
  set g := buildNetworkxGraph r.nodes r.edges with hgdef
  refine ⟨?_, ?_, ?_⟩
  · rw [DiGraph.density]
    rcases Nat.lt_or_ge g.numNodes 2 with hn | hn
    · rw [if_pos (Or.inr (by omega)), if_neg (by omega)]
    · by_cases hm : g.numEdges = 0
      · rw [if_pos (Or.inl hm), if_pos hn, hm]
        norm_num
      · rw [if_neg (not_or.mpr ⟨hm, by omega⟩), if_pos hn]
  · rw [DiGraph.density]
    split
    · exact le_refl 0
    · next hcond =>
      rw [not_or] at hcond
      apply div_nonneg (Nat.cast_nonneg _)
      have h2 : (2 : ℚ) ≤ (g.numNodes : ℚ) := by
        exact_mod_cast (by omega : 2 ≤ g.numNodes)
      nlinarith
  · intro hloop
    rw [DiGraph.density]
    split
    · norm_num
    · next hcond =>
      rw [not_or] at hcond
      have hn2 : 2 ≤ g.numNodes := by omega
      have hnodup : g.edgeList.Nodup :=
        nxfold_nodup r.edges (r.nodes.map Prod.fst) [] List.nodup_nil
      have hsub : g.edgeList.toFinset ⊆ g.nodeIds.toFinset.offDiag := by
        intro e he
        rw [List.mem_toFinset] at he
        rcases nxfold_mem r.edges (r.nodes.map Prod.fst) [] e he with hh | hh
        · exact absurd hh (List.not_mem_nil e)
        · rw [Finset.mem_offDiag]
          exact ⟨List.mem_toFinset.mpr hh.2.1, List.mem_toFinset.mpr hh.2.2,
            hloop e he⟩
      have hbound : g.numEdges ≤ g.numNodes * g.numNodes - g.numNodes := by
        calc g.numEdges = g.edgeList.toFinset.card :=
              (List.toFinset_card_of_nodup hnodup).symm
          _ ≤ g.nodeIds.toFinset.offDiag.card := Finset.card_le_card hsub
          _ = g.nodeIds.toFinset.card * g.nodeIds.toFinset.card -
                g.nodeIds.toFinset.card := Finset.offDiag_card _
          _ ≤ g.numNodes * g.numNodes - g.numNodes :=
              sq_sub_self_mono _ _ (List.toFinset_card_le g.nodeIds)
      rw [div_le_one (by
        have h2 : (2 : ℚ) ≤ (g.numNodes : ℚ) := by exact_mod_cast hn2
        nlinarith)]
      have hcast : ((g.numNodes * g.numNodes - g.numNodes : ℕ) : ℚ) =
          (g.numNodes : ℚ) * ((g.numNodes : ℚ) - 1) := by
        rw [Nat.cast_sub (Nat.le_mul_of_pos_left _ (by omega))]
        push_cast
        ring
      calc ((g.numEdges : ℚ)) ≤ ((g.numNodes * g.numNodes - g.numNodes : ℕ) : ℚ) := by
            exact_mod_cast hbound
        _ = (g.numNodes : ℚ) * ((g.numNodes : ℚ) - 1) := hcast

/-- Witness for the amended C4 at Scenario A (2 nodes, 1 edge, no
self-loop). -/
theorem C4_density_amended_witness :
    build_graph (some docA) = .ok bgResA ∧
    (((buildNetworkxGraph bgResA.nodes bgResA.edges).density =
      if 2 ≤ (buildNetworkxGraph bgResA.nodes bgResA.edges).numNodes then
        ((buildNetworkxGraph bgResA.nodes bgResA.edges).numEdges : ℚ) /
          (((buildNetworkxGraph bgResA.nodes bgResA.edges).numNodes : ℚ) *
            (((buildNetworkxGraph bgResA.nodes bgResA.edges).numNodes : ℚ) - 1))
      else 0) ∧
    0 ≤ (buildNetworkxGraph bgResA.nodes bgResA.edges).density ∧
    ((∀ e ∈ (buildNetworkxGraph bgResA.nodes bgResA.edges).edgeList, e.1 ≠ e.2) →
      (buildNetworkxGraph bgResA.nodes bgResA.edges).density ≤ 1)) :=
  ⟨by decide, C4_density_amended docA bgResA (by decide)⟩

/-! ## Claim C7: duplicate Shape A / Shape B edges -/

theorem count_one_of_nodup {α : Type} [BEq α] [LawfulBEq α] (l : List α)
    (a : α) (hnd : l.Nodup) (ha : a ∈ l) : l.count a = 1 := by
  induction l with
  | nil => exact absurd ha (List.not_mem_nil a)
  | cons b bs ih =>
    rw [List.count_cons]
    rcases List.mem_cons.mp ha with h | h
    · subst h
      rw [if_pos (beq_iff_eq.mpr rfl),
        List.count_eq_zero.mpr (List.nodup_cons.mp hnd).1]
    · have hba : ¬ (b == a) = true := by
        simp only [beq_iff_eq]
        intro he
        subst he
        exact (List.nodup_cons.mp hnd).1 h
      rw [if_neg hba, ih (List.nodup_cons.mp hnd).2 h]

theorem count_flatMap_pair (users : List Elem) (x : String × String) :
    ((users.flatMap edgesOfUser).count x) =
      (users.map (fun u => (edgesOfUser u).count x)).sum := by
  induction users with
  | nil => rfl
  | cons u us ih =>
    rw [List.flatMap_cons, List.count_append, List.map_cons, List.sum_cons, ih]

theorem count_map_pair (l : List String) (wid uid v : String) :
    ((l.map (fun t => (wid, t))).count (uid, v)) =
      if wid = uid then l.count v else 0 := by
  induction l with
  | nil => by_cases h : wid = uid <;> simp [h]
  | cons t ts ih =>
    rw [List.map_cons, List.count_cons, ih, List.count_cons]
    by_cases h : wid = uid
    · subst h
      rw [if_pos rfl, if_pos rfl]
      by_cases h2 : t = v
      · subst h2
        rw [if_pos (beq_iff_eq.mpr rfl), if_pos (beq_iff_eq.mpr rfl)]
      · rw [if_neg (by simp [h2]), if_neg (by simp [h2])]
    · rw [if_neg h, if_neg h, if_neg (by simp [h])]

theorem count_edgesOfUser_some (u : Elem) (wid uid v : String)
    (hr : resolveId u = some wid) :
    (edgesOfUser u).count (uid, v) =
      if wid = uid then (userTargets u).count v else 0 := by
  unfold edgesOfUser
  rw [hr]
  exact count_map_pair _ wid uid v

theorem count_edgesOfUser_none (u : Elem) (uid v : String)
    (hr : resolveId u = none) : (edgesOfUser u).count (uid, v) = 0 := by
  unfold edgesOfUser
  rw [hr]
  rfl

theorem sum_single_contrib (users : List Elem) (u : Elem) (g : Elem → Nat)
    (hc : users.count u = 1) (hz : ∀ w ∈ users, w ≠ u → g w = 0) :
    (users.map g).sum = g u := by
  induction users with
  | nil => simp at hc
  | cons a us ih =>
    rw [List.count_cons] at hc
    rw [List.map_cons, List.sum_cons]
    by_cases h : a = u
    · subst h
      have hc0 : us.count a = 0 := by
        rw [if_pos (beq_iff_eq.mpr rfl)] at hc
        omega
      have hall : ∀ x ∈ us.map g, x = 0 := by
        intro x hx
        obtain ⟨w, hw, hwx⟩ := List.mem_map.mp hx
        have hwa : w ≠ a := by
          intro he
          subst he
          exact (List.count_eq_zero.mp hc0) hw
        rw [← hwx]
        exact hz w (List.mem_cons_of_mem _ hw) hwa
      rw [List.sum_eq_zero hall]
      omega
    · have hgz : g a = 0 := hz a (List.mem_cons_self _ _) h
      have hc1 : us.count u = 1 := by
        rw [if_neg (by simp [h])] at hc
        omega
      rw [hgz,
        ih hc1 (fun w hw hwu => hz w (List.mem_cons_of_mem _ hw) hwu)]
      omega

/-- Claim C7: when the (unique) user element with id `U` lists the same
existing target id `V` exactly once in Shape A and exactly once in
Shape B, the edge list returned by `build_graph` contains `(U, V)` twice
while the constructed NetworkX graph contains it exactly once (edges are
deduplicated per ordered pair only at graph-construction time). -/
theorem C7_duplicate_edge (root u : Elem) (uid v : String) (r : BuildResult)
    (hb : build_graph (some root) = .ok r)
    (hcount : (usersOf root).count u = 1)
    (hid : resolveId u = some uid)
    (huniq : ∀ w ∈ usersOf root, resolveId w = some uid → w = u)
    (hA : (shapeATargets u).count v = 1) (hB : (shapeBTargets u).count v = 1)
    (hv : v ∈ r.nodes.map Prod.fst) :
    r.edges.count (uid, v) = 2 ∧
      (buildNetworkxGraph r.nodes r.edges).edgeList.count (uid, v) = 1 := by
  have hu : u ∈ usersOf root := List.count_pos_iff.mp (by omega)
  have hcnt : r.edges.count (uid, v) = 2 := by
    rw [build_graph_edges hb, count_flatMap_pair]
    have hz : ∀ w ∈ usersOf root, w ≠ u →
        (edgesOfUser w).count (uid, v) = 0 := by
      intro w hw hwu
      cases hr : resolveId w with
      | none => exact count_edgesOfUser_none w uid v hr
      | some wid =>
        rw [count_edgesOfUser_some w wid uid v hr]
        by_cases hwid : wid = uid
        · subst hwid
          exact absurd (huniq w hw hr) hwu
        · rw [if_neg hwid]
    rw [sum_single_contrib (usersOf root) u _ hcount hz,
      count_edgesOfUser_some u uid uid v hid, if_pos rfl, userTargets,
      List.count_append, hA, hB]
  refine ⟨hcnt, ?_⟩
  have hmem : (uid, v) ∈ r.edges := List.count_pos_iff.mp (by omega)
  have hginm : (uid, v) ∈ (buildNetworkxGraph r.nodes r.edges).edgeList :=
    nxfold_mem_of r.edges (r.nodes.map Prod.fst) [] (uid, v) hmem
      (build_graph_nodes_key hb hu hid) hv
  exact count_one_of_nodup _ _
    (nxfold_nodup r.edges (r.nodes.map Prod.fst) [] List.nodup_nil) hginm

def bgResC7 : BuildResult :=
  ⟨[("1", some "Alice"), ("2", some "Bob")], [("2", "1"), ("2", "1")]⟩

/-- Witness for C7: Bob lists the existing user 1 once under `followers`
and once under `connections`; the edge list holds `("2", "1")` twice, the
graph once. -/
theorem C7_duplicate_edge_witness :
    build_graph (some docC7) = .ok bgResC7 ∧
      (bgResC7.edges.count ("2", "1") = 2 ∧
        (buildNetworkxGraph bgResC7.nodes bgResC7.edges).edgeList.count
          ("2", "1") = 1) :=
  ⟨by decide,
   C7_duplicate_edge docC7 userBobBoth "2" "1" bgResC7 (by decide) (by decide)
     (by decide) (by decide) (by decide) (by decide) (by decide)⟩

/-! ## Claim C2: dangling-reference warnings in `check_for_errors` -/

/-- Python falsiness of a post's `id` attribute (`if not post_id:`). -/
def postIdMissing (p : Elem) : Bool :=
  match p.get "id" with
  | some pid => pid == ""
  | none => true

/-- Warnings contributed by one user, in claim-shaped form: nothing for a
user without a truthy id; otherwise one warning per id-less post followed
by EXACTLY ONE warning per follower/connection occurrence whose target is
absent from the valid-id set. -/
def userWarnSpec (validIds : List String) (u : Elem) : List String :=
  match resolvedTruthyId u with
  | none => []
  | some uid =>
    ((u.findallDesc "post").filter postIdMissing).map
      (fun _ => s!"User {uid}: Post missing ID") ++
    ((shapeARawTargets u ++ shapeBTargets u).filter
      (fun fid => decide (fid ∉ validIds))).map
      (fun fid => s!"User {uid}: Follower ID {fid} does not exist in network")

/-- Errors contributed by one user (1-indexed), in claim-shaped form:
only missing-ID and missing-name messages ever enter the error list. -/
def userErrSpec (idx : Nat) (u : Elem) : List String :=
  match resolvedTruthyId u with
  | none => [s!"User #{idx}: Missing user ID"]
  | some uid =>
    match u.find "name" with
    | some e => if txtTruthy e.text then [] else [s!"User {uid}: Missing name"]
    | none => [s!"User {uid}: Missing name"]

def cfeWarningsSpec (root : Elem) : List String :=
  (usersOf root).flatMap
    (userWarnSpec ((usersOf root).filterMap resolvedTruthyId))

def cfeErrorsSpec (root : Elem) : List String :=
  ((usersOf root).enumFrom 1).flatMap (fun iu => userErrSpec iu.1 iu.2)

theorem filterMap_guard_eq {α β : Type} (p : α → Bool) (f : α → β)
    (l : List α) :
    l.filterMap (fun x => if p x then some (f x) else none) =
      (l.filter p).map f := by
  induction l with
  | nil => rfl
  | cons a l ih => by_cases h : p a <;> simp [h, ih]

theorem checkUserMsgs_snd (validIds : List String) (idx : Nat) (u : Elem) :
    (checkUserMsgs validIds idx u).2 = userWarnSpec validIds u := by
  cases hr : resolvedTruthyId u
  · simp [checkUserMsgs, userWarnSpec, hr]
  · next uid =>
    simp only [checkUserMsgs, userWarnSpec, hr]
    congr 1
    · rw [show (fun p : Elem => match p.get "id" with
          | some pid =>
            if pid = "" then some s!"User {uid}: Post missing ID" else none
          | none => some s!"User {uid}: Post missing ID") =
          (fun p : Elem => if postIdMissing p then
            some (s!"User {uid}: Post missing ID") else none) from ?_]
      · exact filterMap_guard_eq postIdMissing _ _
      · funext p
        cases hg : p.get "id"
        · simp [postIdMissing, hg]
        · next pid =>
          by_cases he : pid = "" <;> simp [postIdMissing, hg, he]
    · rw [show (fun fid : String => if fid ∈ validIds then none
          else some s!"User {uid}: Follower ID {fid} does not exist in network") =
          (fun fid : String => if decide (fid ∉ validIds) then
            some (s!"User {uid}: Follower ID {fid} does not exist in network")
            else none) from ?_]
      · exact filterMap_guard_eq _ _ _
      · funext fid
        by_cases h : fid ∈ validIds <;> simp [h]

theorem checkUserMsgs_fst (validIds : List String) (idx : Nat) (u : Elem) :
    (checkUserMsgs validIds idx u).1 = userErrSpec idx u := by
  cases hr : resolvedTruthyId u <;> simp [checkUserMsgs, userErrSpec, hr]

theorem cfe_foldl (validIds : List String) (l : List (Nat × Elem)) :
    ∀ acc, l.foldl (cfeStep validIds) acc =
      (acc.1 ++ l.flatMap (fun iu => (checkUserMsgs validIds iu.1 iu.2).1),
       acc.2 ++ l.flatMap (fun iu => (checkUserMsgs validIds iu.1 iu.2).2)) := by
  induction l with
  | nil => intro acc; simp
  | cons iu l ih =>
    intro acc
    rw [List.foldl_cons, ih, List.flatMap_cons, List.flatMap_cons]
    simp [cfeStep, List.append_assoc]

theorem flatMap_enumFrom_snd {β : Type} (g : Elem → List β) :
    ∀ (n : Nat) (l : List Elem),
      ((l.enumFrom n).flatMap (fun iu => g iu.2)) = l.flatMap g := by
  intro n l
  induction l generalizing n with
  | nil => rfl
  | cons a l ih => rw [List.enumFrom_cons, List.flatMap_cons, List.flatMap_cons, ih]

/-- Counterexample to Claim C2 as stated: `docNoIdDangling` holds one
dangling Shape B occurrence (target 99, valid-id set empty), yet
`check_for_errors` emits ZERO warnings for it — the user's own id is
missing, so the `continue` skips the follower check entirely. -/
theorem C2_dangling_warning_counterexample :
    ("99" ∈ shapeBTargets userNoIdDangling) ∧
    (usersOf docNoIdDangling).filterMap resolvedTruthyId = [] ∧
    check_for_errors (some docNoIdDangling) =
      .ok (["User #1: Missing user ID"], []) :=
  ⟨by decide, by decide, by decide⟩

/-- Claim C2 (amended): for users whose own id resolves truthy, each
dangling follower/connection occurrence yields exactly one warning of the
stated form and never an error entry; occurrences under users without a
truthy id are skipped entirely (their user yields only the missing-ID
error). -/
theorem C2_dangling_warnings_amended (root : Elem)
    (errors warnings : List String)
    (h : check_for_errors (some root) = .ok (errors, warnings)) :
    warnings = cfeWarningsSpec root ∧ errors = cfeErrorsSpec root := by
  simp only [check_for_errors] at h
  injection h with h2
  rw [cfe_foldl] at h2
  have he := congrArg Prod.fst h2
  have hw := congrArg Prod.snd h2
  simp only [List.nil_append] at he hw
  constructor
  · rw [← hw]
    rw [show (fun iu : Nat × Elem =>
        (checkUserMsgs ((usersOf root).filterMap resolvedTruthyId)
          iu.1 iu.2).2) =
        (fun iu : Nat × Elem =>
          userWarnSpec ((usersOf root).filterMap resolvedTruthyId) iu.2) from
      funext (fun iu => checkUserMsgs_snd _ iu.1 iu.2)]
    exact flatMap_enumFrom_snd _ 1 (usersOf root)
  · rw [← he]
    rw [show (fun iu : Nat × Elem =>
        (checkUserMsgs ((usersOf root).filterMap resolvedTruthyId)
          iu.1 iu.2).1) =
        (fun iu : Nat × Elem => userErrSpec iu.1 iu.2) from
      funext (fun iu => checkUserMsgs_fst _ iu.1 iu.2)]
    rfl

/-- Witness for the amended C2 at Scenario C. -/
theorem C2_dangling_warnings_amended_witness :
    check_for_errors (some docScenC) =
      .ok ([], ["User 2: Follower ID 99 does not exist in network"]) ∧
    (["User 2: Follower ID 99 does not exist in network"] =
        cfeWarningsSpec docScenC ∧
      ([] : List String) = cfeErrorsSpec docScenC) :=
  ⟨by decide,
   C2_dangling_warnings_amended docScenC []
     ["User 2: Follower ID 99 does not exist in network"] (by decide)⟩

/-! ## Claim C5: zero users -/

theorem bgFold_nodes_nil (root : Elem)
    (h : ∀ u ∈ usersOf root, resolveId u = none) : (bgFold root).1 = [] := by
  have key : ∀ (l : List Elem), (∀ u ∈ l, resolveId u = none) →
      ∀ acc : List (String × Option String) × List (String × String),
        ((l.foldl bgStep acc).1) = acc.1 := by
    intro l
    induction l with
    | nil => intro _ acc; rfl
    | cons a as ih =>
      intro hl acc
      rw [List.foldl_cons,
        show bgStep acc a = acc from by
          simp [bgStep, hl a (List.mem_cons_self _ _)]]
      exact ih (fun u hu => hl u (List.mem_cons_of_mem _ hu)) acc
  exact key (usersOf root) h ([], [])

/-- Counterexample to Claim C5 as stated: `docNoId` has one `user`
element with no resolvable id but a scalar `<followers>5</followers>`;
`build_graph` fails with the no-users error, yet `calculate_statistics`
reports `total_users = 1` and `total_followers = 5` — not all-zero. -/
theorem C5_no_users_counterexample :
    (usersOf docNoId).length = 1 ∧
    (∀ u ∈ usersOf docNoId, resolveId u = none) ∧
    build_graph (some docNoId) = .error "No users found in XML data." ∧
    (calculate_statistics (some docNoId)).toOption.map CalcStats.total_users =
      some 1 ∧
    (calculate_statistics (some docNoId)).toOption.map
      CalcStats.total_followers = some 5 :=
  ⟨by decide, by decide, by decide, by decide, by decide⟩

/-- Claim C5 (amended): `build_graph` fails with the no-users error
whenever no user element has a resolvable id (in particular for zero
`user` elements), and for a document with zero `user` elements
`calculate_statistics` succeeds with all-zero totals and averages; when
id-less `user` elements exist, however, `calculate_statistics` still
counts them, so its totals need not be zero. -/
theorem C5_no_users_amended (root : Elem)
    (h : ∀ u ∈ usersOf root, resolveId u = none) :
    build_graph (some root) = .error "No users found in XML data." ∧
      (usersOf root = [] →
        calculate_statistics (some root) = .ok ⟨0, 0, 0, 0, 0, 0, 0⟩) := by
  constructor
  · simp [build_graph, bgFold_nodes_nil root h]
  · intro h0
    simp [calculate_statistics, h0, agesOf]

/-- Witness for the amended C5 at the empty document. -/
theorem C5_no_users_amended_witness :
    (∀ u ∈ usersOf docEmpty, resolveId u = none) ∧
    (build_graph (some docEmpty) = .error "No users found in XML data." ∧
      (usersOf docEmpty = [] →
        calculate_statistics (some docEmpty) = .ok ⟨0, 0, 0, 0, 0, 0, 0⟩)) :=
  ⟨by decide, C5_no_users_amended docEmpty (by decide)⟩

/-! ## Claim C6: the sample projection of `parse_user_data` -/

/-- Counterexample to Claim C6 as stated: the first user of `docC6` HAS a
`<name>` child (`Alice`), yet the sample shows `"N/A"` — the code reads
the `username` child, not `name`. -/
theorem C6_sample_counterexample :
    (userAliceA.find "name").isSome = true ∧
    parse_user_data (some docC6) =
      .ok ⟨1, 0, 0, 0, some ⟨"1", some "N/A"⟩⟩ :=
  ⟨by decide, by decide⟩

/-- Claim C6 (amended): for every document with at least one user
element, `parse_user_data` succeeds, and its sample shows the first
user's `id` ATTRIBUTE (defaulting to "N/A" when the attribute is absent;
the child `<id>` fallback is not used here) and the text of the first
user's `username` child ("N/A" exactly when that child is absent; a
present child with no text shows Python `None`; the `<name>` child is
never consulted). -/
theorem C6_sample_amended (root u : Elem) (rest : List Elem)
    (h : usersOf root = u :: rest) :
    (parse_user_data (some root)).isOk = true ∧
    (parse_user_data (some root)).toOption.map ParseStats.sample_user =
      some (some ⟨(u.get "id").getD "N/A",
        match u.find "username" with
        | some e => e.text
        | none => some "N/A"⟩) := by
  have hp : parse_user_data (some root) = .ok ⟨(u :: rest).length,
      ((u :: rest).map (fun w => scalarOf w "followers")).sum,
      ((u :: rest).map (fun w => scalarOf w "following")).sum,
      ((u :: rest).map (fun w => (w.findallDesc "post").length)).sum,
      some ⟨(u.get "id").getD "N/A",
        match u.find "username" with
        | some e => e.text
        | none => some "N/A"⟩⟩ := by
    simp [parse_user_data, h]
  rw [hp]
  exact ⟨rfl, rfl⟩

/-- Witness for the amended C6 at `docC6`. -/
theorem C6_sample_amended_witness :
    usersOf docC6 = userAliceA :: [] ∧
    ((parse_user_data (some docC6)).isOk = true ∧
      (parse_user_data (some docC6)).toOption.map ParseStats.sample_user =
        some (some ⟨(userAliceA.get "id").getD "N/A",
          match userAliceA.find "username" with
          | some e => e.text
          | none => some "N/A"⟩)) :=
  ⟨by decide, C6_sample_amended docC6 userAliceA [] (by decide)⟩

/-! ## Claim C8: likes resolution in `export_to_json` -/

def postE : Elem :=
  el "post" [("id", "p1")] none [txt "likes" "abc", txt "content" "hi"]

/-- Claim C8: the exported `likes` value is the integer parse of the
`<likes>` child text with default 0 on absence, empty or `None` text, or
parse failure; the resolution is total (`export_to_json` always
succeeds), the exported posts carry exactly these values, and on
Scenario E (`<likes>abc</likes>`) the pipeline raises no error and no
warning. -/
theorem C8_likes_resolution :
    (∀ (fp : String) (root : Elem),
      (export_to_json fp (some root)).isOk = true) ∧
    (∀ p : Elem,
      (p.find "likes" = none → exportLikes p = 0) ∧
      (∀ e, p.find "likes" = some e → (e.text = none ∨ e.text = some "") →
        exportLikes p = 0) ∧
      (∀ e t, p.find "likes" = some e → e.text = some t →
        pyInt (pyStrip t) = none → exportLikes p = 0) ∧
      (∀ e t k, p.find "likes" = some e → e.text = some t → t ≠ "" →
        pyInt (pyStrip t) = some k → exportLikes p = k)) ∧
    (∀ (root u : Elem), u ∈ usersOf root → ∀ uj, exportUser u = some uj →
      uj.posts.map PostJson.likes = (u.findallDesc "post").map exportLikes) ∧
    (export_to_json "o" (some docE) =
      .ok ([⟨"1", some "Ann", [⟨some "p1", "hi", "", 0⟩], []⟩],
        "Successfully exported 1 users to JSON. File saved: o") ∧
      check_for_errors (some docE) = .ok ([], [])) := by
  refine ⟨fun fp root => rfl, ?_, ?_, by decide, by decide⟩
  · intro p
    refine ⟨?_, ?_, ?_, ?_⟩
    · intro h
      simp [exportLikes, h]
    · intro e he htx
      rcases htx with h | h <;> simp [exportLikes, he, h]
    · intro e t he ht hpi
      by_cases h0 : t = ""
      · simp [exportLikes, he, ht, h0]
      · simp [exportLikes, he, ht, h0, hpi]
    · intro e t k he ht h0 hpi
      simp [exportLikes, he, ht, h0, hpi]
  · intro root u hu uj huj
    unfold exportUser at huj
    split at huj
    · exact Option.noConfusion huj
    · injection huj with h2
      rw [← h2, List.map_map]
      rfl

/-- Witness for C8: the unparsable `<likes>abc</likes>` of `postE`
resolves to 0. -/
theorem C8_likes_resolution_witness :
    postE.find "likes" = some (txt "likes" "abc") ∧
    (txt "likes" "abc").text = some "abc" ∧
    pyInt (pyStrip "abc") = none ∧
    exportLikes postE = 0 :=
  ⟨by decide, by decide, by decide,
   (C8_likes_resolution.2.1 postE).2.2.1 (txt "likes" "abc") "abc"
     (by decide) (by decide) (by decide)⟩

/-! ## Claim C10: strip mismatch between `build_graph` and
`check_for_errors` -/

def bgResWs : BuildResult :=
  ⟨[("1", some "Alice"), ("2", some "Bob")], [("2", "1")]⟩

/-- Claim C10: `build_graph` strips Shape A targets while
`check_for_errors` compares them unstripped; on `docWs` (Bob's follower
entry reads `" 1 "` and user 1 exists) the validator emits a dangling
warning for `" 1 "` while `build_graph` still materializes the edge
`("2", "1")` in the graph. -/
theorem C10_strip_mismatch :
    shapeATargets userBobWs = ["1"] ∧
    shapeARawTargets userBobWs = [" 1 "] ∧
    check_for_errors (some docWs) =
      .ok ([], ["User 2: Follower ID  1  does not exist in network"]) ∧
    build_graph (some docWs) = .ok bgResWs ∧
    ("2", "1") ∈ (buildNetworkxGraph bgResWs.nodes bgResWs.edges).edgeList :=
  ⟨by decide, by decide, by decide, by decide, by decide⟩
